import Mathlib

/-!
Shallow embedding of the pipecat streaming-pipeline core, translated from:
  - `src/pipecat/transports/base_input.py` (`BaseInputTransport`)
  - `src/pipecat/services/aws/stt.py` (`AWSTranscribeSTTService`)
  - `examples/foundational/22b-natural-conversation-proposal.py` (`OutputGate`)
Asynchronous effects (`push_frame`, task creation, executor submission) are
embedded as explicit event lists returned alongside the updated state; the
classifier/analyzer results (which come from external blocking calls) are
inputs to the embedded step functions.
-/

namespace Pipecat

/-- Direction of a frame's travel through the chain
(`FrameDirection` in `pipecat.processors.frame_processor`). -/
inductive FrameDirection
  | downstream
  | upstream
deriving DecidableEq, Repr

/-- The frame types used by the embedded components, one constructor per
Python frame class mentioned by the embedded code. Data frames carry an id so
that distinct concrete frames can be formed. -/
inductive Frame
  | startF
  | endF
  | cancelF
  | startInterruption
  | stopInterruption
  | botInterruption
  | emulateUserStartedSpeaking
  | emulateUserStoppedSpeaking
  | userStartedSpeaking (emulated : Bool)
  | userStoppedSpeaking (emulated : Bool)
  | userEndOfTurn
  | vadParamsUpdate
  | filterUpdateSettings
  | inputAudioRaw (id : Nat)
  | otherSystem (id : Nat)
  | functionCallInProgress (id : Nat)
  | functionCallResult (id : Nat)
  | text (s : String)
  | dataF (id : Nat)
deriving DecidableEq, Repr

/-- Modelled from the spec: the frame-class taxonomy of
`pipecat.frames.frames` (that module is not among the sources). Per spec §3
and §4.5, StartInterruptionFrame/StopInterruptionFrame and the
speech-marker frames are System frames; StartFrame and CancelFrame are
System frames (they are dispatched on the expedited path in
`BaseInputTransport.process_frame`); EndFrame and the parameter-update
frames are Control frames; audio/text/function-call frames are Data
frames. -/
def isSystemFrame : Frame → Bool
  | .startF => true
  | .cancelF => true
  | .startInterruption => true
  | .stopInterruption => true
  | .botInterruption => true
  | .emulateUserStartedSpeaking => true
  | .emulateUserStoppedSpeaking => true
  | .userStartedSpeaking _ => true
  | .userStoppedSpeaking _ => true
  | .userEndOfTurn => true
  | .otherSystem _ => true
  | _ => false

/-- `isinstance(frame, (FunctionCallInProgressFrame, FunctionCallResultFrame))`. -/
def isFunctionCallFrame : Frame → Bool
  | .functionCallInProgress _ => true
  | .functionCallResult _ => true
  | _ => false

/-! ## OutputGate
From `examples/foundational/22b-natural-conversation-proposal.py`. The
mutable attributes `_gate_open`, `_frames_buffer` and `_gate_task` become a
state record; each `push_frame` call becomes an element of the returned
output list, in call order. -/

/-- State of an `OutputGate`: `_gate_open`, `_frames_buffer` and whether
`_gate_task` is alive. -/
structure GateState where
  gateOpen : Bool
  framesBuffer : List (Frame × FrameDirection)
  gateTask : Bool
deriving DecidableEq, Repr

namespace OutputGate

/-- `OutputGate.__init__(notifier, start_open=False)`. -/
def init (startOpen : Bool) : GateState :=
  { gateOpen := startOpen, framesBuffer := [], gateTask := false }

/-- `OutputGate.process_frame(frame, direction)`: returns the updated state
and the list of `push_frame(frame, direction)` calls made, in order. -/
def processFrame (s : GateState) (frame : Frame) (direction : FrameDirection) :
    GateState × List (Frame × FrameDirection) :=
  if isSystemFrame frame then
    -- We must not block system frames.
    let s := if frame = Frame.startF then
      { s with framesBuffer := [], gateTask := true } else s
    let s := if frame = Frame.endF ∨ frame = Frame.cancelF then
      { s with gateTask := false } else s
    let s := if frame = Frame.startInterruption then
      { s with framesBuffer := [], gateOpen := false } else s
    (s, [(frame, direction)])
  else if isFunctionCallFrame frame then
    -- Don't block function call frames.
    (s, [(frame, direction)])
  else if direction ≠ FrameDirection.downstream then
    -- Ignore frames that are not following the direction of this gate.
    (s, [(frame, direction)])
  else if s.gateOpen then
    (s, [(frame, direction)])
  else
    ({ s with framesBuffer := s.framesBuffer ++ [(frame, direction)] }, [])

/-- One wake-up of `OutputGate._gate_task_handler` after `notifier.wait()`
returns: `open_gate()`, push every buffered (frame, direction) in order,
then clear the buffer. -/
def gateWake (s : GateState) : GateState × List (Frame × FrameDirection) :=
  ({ s with gateOpen := true, framesBuffer := [] }, s.framesBuffer)

/-- Process a sequence of (frame, direction) pairs one after the other,
accumulating the pushed output in order. -/
def processSeq (s : GateState) :
    List (Frame × FrameDirection) → GateState × List (Frame × FrameDirection)
  | [] => (s, [])
  | fd :: rest =>
      let r := processFrame s fd.1 fd.2
      let r2 := processSeq r.1 rest
      (r2.1, r.2 ++ r2.2)

end OutputGate

/-! ## BaseInputTransport
From `src/pipecat/transports/base_input.py`. -/

/-- VAD state (`pipecat.audio.vad.vad_analyzer.VADState`). -/
inductive VADState
  | quiet
  | starting
  | speaking
  | stopping
deriving DecidableEq, Repr

/-- End-of-turn state (`pipecat.audio.turn.base_turn_analyzer.EndOfTurnState`). -/
inductive EndOfTurnState
  | incomplete
  | complete
deriving DecidableEq, Repr

/-- The `TransportParams` fields `BaseInputTransport` reads. An analyzer or
filter attribute that may be `None` is embedded as its presence flag;
`audio_in_sample_rate` is `Option Nat` (`none` = `None`/falsy). -/
structure TransportParams where
  audio_in_enabled : Bool
  vad_enabled : Bool
  vad_audio_passthrough : Bool
  vad_analyzer : Bool
  end_of_turn_analyzer : Bool
  audio_in_filter : Bool
  audio_in_sample_rate : Option Nat
  audio_out_10ms_chunks : Nat
deriving DecidableEq, Repr

/-- `ThreadPoolExecutor(max_workers=1)` in `BaseInputTransport.__init__`:
the blocking classification pool is capacity one. -/
def executorMaxWorkers : Nat := 1

/-- Mutable per-transport state touched by `BaseInputTransport.start`.
`audioTaskCreations` counts `create_task(self._audio_task_handler())` calls;
`vadSampleRate`, `eotSampleRate`, `eotChunkMs`, `filterStartedRate` record
the configuration pushed into the analyzers/filter (`none` = never set). -/
structure InputState where
  sampleRate : Nat
  vadSampleRate : Option Nat
  eotSampleRate : Option Nat
  eotChunkMs : Option Nat
  filterStartedRate : Option Nat
  audioTask : Bool
  audioTaskCreations : Nat
deriving DecidableEq, Repr

namespace BaseInputTransport

/-- `BaseInputTransport.start(frame)`: `frameRate` is
`frame.audio_in_sample_rate`. -/
def start (p : TransportParams) (s : InputState) (frameRate : Nat) : InputState :=
  let rate := p.audio_in_sample_rate.getD frameRate
  let s := { s with sampleRate := rate }
  -- Configure VAD analyzer.
  let s := if p.vad_enabled ∧ p.vad_analyzer then
    { s with vadSampleRate := some rate } else s
  -- Configure End of turn analyzer.
  let s := if p.end_of_turn_analyzer then
    { s with eotSampleRate := some rate,
             eotChunkMs := some (p.audio_out_10ms_chunks * 10) } else s
  -- Start audio filter.
  let s := if p.audio_in_filter then { s with filterStartedRate := some rate } else s
  -- Create audio input queue and task if needed.
  if ¬s.audioTask ∧ (p.audio_in_enabled ∨ p.vad_enabled) then
    { s with audioTask := true, audioTaskCreations := s.audioTaskCreations + 1 }
  else s

/-- `BaseInputTransport._handle_user_interruption(frame)`: the frames pushed,
in order. `interruptionsAllowed` is the base processor's
`interruptions_allowed` flag. -/
def handleUserInterruption (interruptionsAllowed : Bool) (frame : Frame) : List Frame :=
  match frame with
  | .userStartedSpeaking e =>
      if interruptionsAllowed then
        [.userStartedSpeaking e, .startInterruption]
      else
        [.userStartedSpeaking e]
  | .userStoppedSpeaking e =>
      if interruptionsAllowed then
        [.userStoppedSpeaking e, .stopInterruption]
      else
        [.userStoppedSpeaking e]
  | .userEndOfTurn => [.userEndOfTurn]
  | _ => []

/-- `BaseInputTransport._handle_vad(frame, vad_state)`: `newVadState` is the
analyzer result from `_vad_analyze`; returns the pushed frames and the
returned (tracked) VAD state. -/
def handleVad (interruptionsAllowed : Bool) (vadState newVadState : VADState) :
    List Frame × VADState :=
  if newVadState ≠ vadState ∧ newVadState ≠ VADState.starting ∧
      newVadState ≠ VADState.stopping then
    let frame : Option Frame :=
      if newVadState = VADState.speaking then some (.userStartedSpeaking false)
      else if newVadState = VADState.quiet then some (.userStoppedSpeaking false)
      else none
    let pushed := match frame with
      | some f => handleUserInterruption interruptionsAllowed f
      | none => []
    (pushed, newVadState)
  else
    ([], vadState)

/-- `BaseInputTransport._handle_end_of_turn(frame, end_of_turn_state,
is_speech)`: `newEotState` is the analyzer result from
`_end_of_turn_analyze`; returns the pushed frames and the returned state. -/
def handleEndOfTurn (eotState newEotState : EndOfTurnState) :
    List Frame × EndOfTurnState :=
  if newEotState ≠ eotState then
    (handleUserInterruption false Frame.userEndOfTurn, newEotState)
  else
    ([], newEotState)

/-- Run `_handle_vad` over a sequence of analyzer results, accumulating the
pushed frames. -/
def runVadSequence (interruptionsAllowed : Bool) (init : VADState)
    (results : List VADState) : List Frame × VADState :=
  results.foldl (fun acc ns =>
    let r := handleVad interruptionsAllowed acc.2 ns
    (acc.1 ++ r.1, r.2)) ([], init)

/-- `is_speech` as computed in `_audio_task_handler` before calling
`_handle_end_of_turn`. -/
def isSpeechFlag (v : VADState) : Bool :=
  v = VADState.speaking ∨ v = VADState.starting

/-- One iteration of `_audio_task_handler` after an audio frame is popped
from the queue. `vadResult` is the VAD analyzer's answer for this chunk;
`eotOracle` maps the submitted `is_speech` flag to the end-of-turn
analyzer's answer. Returns the new (vad, eot) states, the pushed frames in
order, and the `is_speech` flag submitted to the end-of-turn analyzer
(`none` when no end-of-turn analyzer is configured). -/
def audioStep (p : TransportParams) (interruptionsAllowed : Bool)
    (vadResult : VADState) (eotOracle : Bool → EndOfTurnState)
    (audioFrame : Frame) (vadState : VADState) (eotState : EndOfTurnState) :
    (VADState × EndOfTurnState) × List Frame × Option Bool :=
  let vadStep := if p.vad_enabled then handleVad interruptionsAllowed vadState vadResult
    else ([], vadState)
  let audioPassthrough := if p.vad_enabled then p.vad_audio_passthrough else true
  let submitted := if p.end_of_turn_analyzer then some (isSpeechFlag vadStep.2) else none
  let eotStep := if p.end_of_turn_analyzer then
      handleEndOfTurn eotState (eotOracle (isSpeechFlag vadStep.2))
    else ([], eotState)
  let pushed := vadStep.1 ++ eotStep.1 ++ (if audioPassthrough then [audioFrame] else [])
  ((vadStep.2, eotStep.2), pushed, submitted)

/-- Actions performed by `BaseInputTransport.process_frame`, in program
order: each `push_frame` call and each lifecycle-routine call. -/
inductive Event
  | pushed (f : Frame) (d : FrameDirection)
  | startCalled
  | stopCalled
  | cancelCalled
deriving DecidableEq, Repr

/-- `BaseInputTransport.process_frame(frame, direction)`: the ordered list
of actions taken (the `isinstance` dispatch chain, top to bottom). -/
def processFrame (p : TransportParams) (interruptionsAllowed : Bool)
    (frame : Frame) (direction : FrameDirection) : List Event :=
  match frame with
  | .startF =>
      -- Push StartFrame before start(), because we want StartFrame to be
      -- processed by every processor before any other frame is processed.
      [.pushed frame direction, .startCalled]
  | .cancelF => [.cancelCalled, .pushed frame direction]
  | .botInterruption =>
      if interruptionsAllowed then
        [.pushed Frame.startInterruption FrameDirection.downstream]
      else []
  | .emulateUserStartedSpeaking =>
      (handleUserInterruption interruptionsAllowed (.userStartedSpeaking true)).map
        (Event.pushed · FrameDirection.downstream)
  | .emulateUserStoppedSpeaking =>
      (handleUserInterruption interruptionsAllowed (.userStoppedSpeaking true)).map
        (Event.pushed · FrameDirection.downstream)
  | .endF =>
      -- Push EndFrame before stop(), because stop() waits on the task to
      -- finish and the task finishes when EndFrame is processed.
      [.pushed frame direction, .stopCalled]
  | .vadParamsUpdate => []
  | .filterUpdateSettings =>
      if p.audio_in_filter then [] else [.pushed frame direction]
  | f =>
      if isSystemFrame f then [.pushed f direction]
      else [.pushed f direction]

end BaseInputTransport

/-! ## AWSTranscribeSTTService
From `src/pipecat/services/aws/stt.py`. -/

namespace AWSTranscribeSTTService

/-- Outcome of one `await self._connect()` call inside `start`, at the
`websocket_connect` boundary: the call raises, or returns with the client
open, or returns with the client not open (the code's
"WebSocket connection not established after connect" branch). -/
inductive ConnectOutcome
  | opened
  | notOpen
  | raised
deriving DecidableEq, Repr

/-- How `start` terminates. -/
inductive StartResult
  | connected
  | runtimeError
deriving DecidableEq, Repr

/-- The `while retry_count < max_retries` loop of
`AWSTranscribeSTTService.start`, with `max_retries = 3`. `outs` is the
sequence of `_connect` outcomes the environment would produce; `none` means
the loop is still running when the supplied outcomes run out. Note that
`retry_count` is incremented only in the `except` branch: a `.notOpen`
outcome re-enters the loop without counting. -/
def startLoop (outs : List ConnectOutcome) (retryCount : Nat) : Option StartResult :=
  if 3 ≤ retryCount then some .runtimeError
  else
    match outs with
    | [] => none
    | o :: rest =>
      match o with
      | .opened => some .connected
      | .notOpen => startLoop rest retryCount
      | .raised => startLoop rest (retryCount + 1)

/-- Number of `_connect` attempts `start` makes before terminating (counts
consumed outcomes; if the loop is still running when `outs` runs out, the
attempts so far). -/
def startAttempts (outs : List ConnectOutcome) (retryCount : Nat) : Nat :=
  if 3 ≤ retryCount then 0
  else
    match outs with
    | [] => 0
    | o :: rest =>
      match o with
      | .opened => 1
      | .notOpen => 1 + startAttempts rest retryCount
      | .raised => 1 + startAttempts rest (retryCount + 1)

/-- The sample-rate handling of `AWSTranscribeSTTService.__init__`:
`self._settings["sample_rate"] = sample_rate`, then if
`sample_rate not in [8000, 16000]` a warning is logged and the setting is
overwritten with 16000. Returns the stored setting and whether the warning
was logged; construction itself never fails on the sample rate. -/
def initSampleRate (sample_rate : Int) : Int × Bool :=
  let stored := sample_rate
  if sample_rate ∉ ([8000, 16000] : List Int) then
    (16000, true)
  else
    (stored, false)

end AWSTranscribeSTTService

/-! ## Observation helpers -/

/-- A speaking-transition frame: `UserStartedSpeakingFrame` or
`UserStoppedSpeakingFrame`. -/
def isSpeakingTransitionFrame : Frame → Bool
  | .userStartedSpeaking _ => true
  | .userStoppedSpeaking _ => true
  | _ => false

/-- Number of `UserStartedSpeakingFrame`s in a list of pushed frames. -/
def countUserStartedSpeaking (fs : List Frame) : Nat :=
  (fs.filter fun f => match f with
    | .userStartedSpeaking _ => true
    | _ => false).length

/-! ## Claims -/

/-- Helper: while the gate is closed, a non-system, non-function-call frame
travelling downstream is appended to the buffer and nothing is pushed. -/
theorem processFrame_closed_data (s : GateState) (f : Frame)
    (hclosed : s.gateOpen = false)
    (hsys : isSystemFrame f = false) (hfc : isFunctionCallFrame f = false) :
    OutputGate.processFrame s f FrameDirection.downstream
      = ({ s with framesBuffer :=
            s.framesBuffer ++ [(f, FrameDirection.downstream)] }, []) := by
  simp [OutputGate.processFrame, hsys, hfc, hclosed]

/-- Helper: processing a sequence of non-system, non-function-call
downstream frames through a closed gate pushes nothing and appends them to
the buffer in arrival order. -/
theorem processSeq_closed_buffers (fs : List (Frame × FrameDirection)) :
    ∀ s : GateState, s.gateOpen = false →
    (∀ fd ∈ fs, isSystemFrame fd.1 = false ∧ isFunctionCallFrame fd.1 = false
      ∧ fd.2 = FrameDirection.downstream) →
    OutputGate.processSeq s fs
      = ({ s with framesBuffer := s.framesBuffer ++ fs }, []) := by
  induction fs with
  | nil => intro s hc hd; simp [OutputGate.processSeq]
  | cons fd rest ih =>
      intro s hc hd
      obtain ⟨f, d⟩ := fd
      obtain ⟨h1, h2, h3⟩ := hd (f, d) (by simp)
      subst h3
      have step := processFrame_closed_data s f hc h1 h2
      simp only [OutputGate.processSeq, step]
      rw [ih _ (by simp [hc]) (fun fd hm => hd fd (by simp [hm]))]
      simp

/-- Claim C2: `_handle_vad` emits frames only on an edge whose new analyzer
state is SPEAKING or QUIET and differs from the previous tracked state;
STARTING and STOPPING analyzer results never emit anything; and the
sequence QUIET→STARTING→SPEAKING (starting from tracked state QUIET)
emits exactly one `UserStartedSpeakingFrame`. -/
theorem vad_transition_only_on_quiet_speaking_edges
    (ia : Bool) (prev new p : VADState)
    (h : (BaseInputTransport.handleVad ia prev new).1 ≠ []) :
    ((new = VADState.speaking ∨ new = VADState.quiet) ∧ new ≠ prev)
    ∧ (BaseInputTransport.handleVad ia p VADState.starting).1 = []
    ∧ (BaseInputTransport.handleVad ia p VADState.stopping).1 = []
    ∧ countUserStartedSpeaking
        (BaseInputTransport.runVadSequence ia VADState.quiet
          [VADState.starting, VADState.speaking]).1 = 1 := by
  cases ia <;> cases prev <;> cases new <;> cases p <;> revert h <;> decide

/-- Witness for C2 at a concrete QUIET→SPEAKING edge. -/
theorem vad_transition_only_on_quiet_speaking_edges_witness :
    ((VADState.speaking = VADState.speaking ∨ VADState.speaking = VADState.quiet)
      ∧ VADState.speaking ≠ VADState.quiet)
    ∧ (BaseInputTransport.handleVad false VADState.quiet VADState.starting).1 = []
    ∧ (BaseInputTransport.handleVad false VADState.quiet VADState.stopping).1 = []
    ∧ countUserStartedSpeaking
        (BaseInputTransport.runVadSequence false VADState.quiet
          [VADState.starting, VADState.speaking]).1 = 1 :=
  vad_transition_only_on_quiet_speaking_edges false VADState.quiet VADState.speaking
    VADState.quiet (by decide)

/-- Claim C4: with interruptions allowed, a QUIET→SPEAKING analyzer
transition emits `UserStartedSpeakingFrame` and `StartInterruptionFrame`;
an emulated user-started-speaking request does the same (with the emulated
flag); a SPEAKING→QUIET transition emits `UserStoppedSpeakingFrame` and
`StopInterruptionFrame`. -/
theorem interruption_state_machine_emissions
    (p : TransportParams) (d : FrameDirection) :
    (BaseInputTransport.handleVad true VADState.quiet VADState.speaking).1
      = [Frame.userStartedSpeaking false, Frame.startInterruption]
    ∧ BaseInputTransport.processFrame p true Frame.emulateUserStartedSpeaking d
      = [BaseInputTransport.Event.pushed (Frame.userStartedSpeaking true)
           FrameDirection.downstream,
         BaseInputTransport.Event.pushed Frame.startInterruption
           FrameDirection.downstream]
    ∧ (BaseInputTransport.handleVad true VADState.speaking VADState.quiet).1
      = [Frame.userStoppedSpeaking false, Frame.stopInterruption] := by
  refine ⟨by decide, rfl, by decide⟩

/-- Claim C5: `BaseInputTransport.process_frame` pushes an EndFrame
downstream before calling `stop`, and pushes a StartFrame before calling
`start`. -/
theorem end_and_start_frames_pushed_before_lifecycle_routines
    (p : TransportParams) (ia : Bool) (d : FrameDirection) :
    BaseInputTransport.processFrame p ia Frame.endF d
      = [BaseInputTransport.Event.pushed Frame.endF d,
         BaseInputTransport.Event.stopCalled]
    ∧ BaseInputTransport.processFrame p ia Frame.startF d
      = [BaseInputTransport.Event.pushed Frame.startF d,
         BaseInputTransport.Event.startCalled] :=
  ⟨rfl, rfl⟩

/-- Claim C10: construction never fails on account of the sample rate:
8000 and 16000 are kept unchanged (no warning), any other value is
replaced by 16000 with a warning. -/
theorem aws_sample_rate_validation (r : Int) :
    ((r = 8000 ∨ r = 16000) → AWSTranscribeSTTService.initSampleRate r = (r, false))
    ∧ (¬(r = 8000 ∨ r = 16000) →
        AWSTranscribeSTTService.initSampleRate r = (16000, true)) := by
  constructor <;> intro h <;>
    simp only [AWSTranscribeSTTService.initSampleRate, List.mem_cons,
      List.mem_singleton, List.not_mem_nil, or_false] <;>
    rcases Decidable.em (r = 8000 ∨ r = 16000) with h2 | h2 <;> simp_all

/-- Witness for C10 at 8000 (kept) and 44100 (replaced, warned). -/
theorem aws_sample_rate_validation_witness :
    AWSTranscribeSTTService.initSampleRate 8000 = (8000, false)
    ∧ AWSTranscribeSTTService.initSampleRate 44100 = (16000, true) :=
  ⟨(aws_sample_rate_validation 8000).1 (Or.inl rfl),
   (aws_sample_rate_validation 44100).2 (by decide)⟩

/-- Claim C3: in any gate state, a System frame or a function-call frame is
forwarded immediately by `OutputGate.process_frame` and never appended to
the buffer (the buffer is either untouched or cleared, never grown). -/
theorem gate_passes_system_and_function_call_frames
    (s : GateState) (f : Frame) (d : FrameDirection)
    (h : isSystemFrame f = true ∨ isFunctionCallFrame f = true) :
    (OutputGate.processFrame s f d).2 = [(f, d)]
    ∧ ((OutputGate.processFrame s f d).1.framesBuffer = s.framesBuffer
       ∨ (OutputGate.processFrame s f d).1.framesBuffer = []) := by
  rcases h with h | h
  · simp only [OutputGate.processFrame, h]
    split_ifs <;> simp_all
  · have hs : isSystemFrame f = false := by
      cases f <;> simp_all [isFunctionCallFrame, isSystemFrame]
    simp [OutputGate.processFrame, hs, h]

/-- Witness for C3: a function-call frame passes through a closed gate with
a non-empty buffer. -/
theorem gate_passes_system_and_function_call_frames_witness :
    (OutputGate.processFrame
        { gateOpen := false,
          framesBuffer := [(Frame.dataF 1, FrameDirection.downstream)],
          gateTask := true }
        (Frame.functionCallInProgress 7) FrameDirection.downstream).2
      = [(Frame.functionCallInProgress 7, FrameDirection.downstream)]
    ∧ ((OutputGate.processFrame
        { gateOpen := false,
          framesBuffer := [(Frame.dataF 1, FrameDirection.downstream)],
          gateTask := true }
        (Frame.functionCallInProgress 7) FrameDirection.downstream).1.framesBuffer
        = [(Frame.dataF 1, FrameDirection.downstream)]
      ∨ (OutputGate.processFrame
        { gateOpen := false,
          framesBuffer := [(Frame.dataF 1, FrameDirection.downstream)],
          gateTask := true }
        (Frame.functionCallInProgress 7) FrameDirection.downstream).1.framesBuffer
        = []) :=
  gate_passes_system_and_function_call_frames
    { gateOpen := false,
      framesBuffer := [(Frame.dataF 1, FrameDirection.downstream)],
      gateTask := true }
    (Frame.functionCallInProgress 7) FrameDirection.downstream (Or.inr rfl)

/-- Claim C6: while the gate is closed, every non-system, non-function-call
downstream frame is buffered instead of forwarded; on a Notifier wake the
buffered frames are flushed in arrival order and the buffer is left
empty. -/
theorem gate_closed_buffering_and_flush_order
    (s : GateState) (fs : List (Frame × FrameDirection))
    (hclosed : s.gateOpen = false)
    (hdata : ∀ fd ∈ fs, isSystemFrame fd.1 = false ∧ isFunctionCallFrame fd.1 = false
      ∧ fd.2 = FrameDirection.downstream) :
    (OutputGate.processSeq s fs).2 = []
    ∧ (OutputGate.processSeq s fs).1.framesBuffer = s.framesBuffer ++ fs
    ∧ (OutputGate.gateWake (OutputGate.processSeq s fs).1).2 = s.framesBuffer ++ fs
    ∧ (OutputGate.gateWake (OutputGate.processSeq s fs).1).1.framesBuffer = []
    ∧ (OutputGate.gateWake (OutputGate.processSeq s fs).1).1.gateOpen = true := by
  rw [processSeq_closed_buffers fs s hclosed hdata]
  simp [OutputGate.gateWake]

/-- Witness for C6: two data frames buffered through a freshly started
closed gate, then flushed in order by a wake. -/
theorem gate_closed_buffering_and_flush_order_witness :
    (OutputGate.processSeq { gateOpen := false, framesBuffer := [], gateTask := true }
        [(Frame.text "a", FrameDirection.downstream),
         (Frame.dataF 2, FrameDirection.downstream)]).2 = []
    ∧ (OutputGate.processSeq { gateOpen := false, framesBuffer := [], gateTask := true }
        [(Frame.text "a", FrameDirection.downstream),
         (Frame.dataF 2, FrameDirection.downstream)]).1.framesBuffer
      = [] ++ [(Frame.text "a", FrameDirection.downstream),
         (Frame.dataF 2, FrameDirection.downstream)]
    ∧ (OutputGate.gateWake (OutputGate.processSeq
        { gateOpen := false, framesBuffer := [], gateTask := true }
        [(Frame.text "a", FrameDirection.downstream),
         (Frame.dataF 2, FrameDirection.downstream)]).1).2
      = [] ++ [(Frame.text "a", FrameDirection.downstream),
         (Frame.dataF 2, FrameDirection.downstream)]
    ∧ (OutputGate.gateWake (OutputGate.processSeq
        { gateOpen := false, framesBuffer := [], gateTask := true }
        [(Frame.text "a", FrameDirection.downstream),
         (Frame.dataF 2, FrameDirection.downstream)]).1).1.framesBuffer = []
    ∧ (OutputGate.gateWake (OutputGate.processSeq
        { gateOpen := false, framesBuffer := [], gateTask := true }
        [(Frame.text "a", FrameDirection.downstream),
         (Frame.dataF 2, FrameDirection.downstream)]).1).1.gateOpen = true :=
  gate_closed_buffering_and_flush_order
    { gateOpen := false, framesBuffer := [], gateTask := true }
    [(Frame.text "a", FrameDirection.downstream),
     (Frame.dataF 2, FrameDirection.downstream)]
    rfl (by decide)

/-- Claim C7: delivering the same StartFrame twice to an already-started
`BaseInputTransport` leaves the state exactly as after the first delivery
(configuration values end up set once), and across both deliveries the
audio task is created at most once. -/
theorem start_frame_idempotent
    (p : TransportParams) (s : InputState) (frameRate : Nat) :
    BaseInputTransport.start p (BaseInputTransport.start p s frameRate) frameRate
      = BaseInputTransport.start p s frameRate
    ∧ (BaseInputTransport.start p (BaseInputTransport.start p s frameRate)
        frameRate).audioTaskCreations ≤ s.audioTaskCreations + 1 := by
  obtain ⟨a_in, vad_en, vad_pt, vad_an, eot_an, filt, rate_opt, chunks⟩ := p
  obtain ⟨sr, vsr, esr, ecm, fsr, task, crs⟩ := s
  cases a_in <;> cases vad_en <;> cases vad_an <;> cases eot_an <;>
    cases filt <;> cases task <;>
    simp [BaseInputTransport.start]

/-- Claim C8: the blocking classification pool is capacity one; when an
end-of-turn analyzer is configured, each audio step submits the current
speech/non-speech flag (derived from the updated VAD state) to it, and
`_handle_end_of_turn` emits a `UserEndOfTurnFrame` exactly when the
analyzer's answer differs from the previously tracked state, tracking the
new state either way. -/
theorem end_of_turn_submission_and_emission
    (p : TransportParams) (ia : Bool) (vr : VADState) (eo : Bool → EndOfTurnState)
    (af : Frame) (vs : VADState) (es prev new : EndOfTurnState)
    (hp : p.end_of_turn_analyzer = true) :
    executorMaxWorkers = 1
    ∧ (BaseInputTransport.audioStep p ia vr eo af vs es).2.2
      = some (BaseInputTransport.isSpeechFlag
          (BaseInputTransport.audioStep p ia vr eo af vs es).1.1)
    ∧ ((BaseInputTransport.handleEndOfTurn prev new).1 = [Frame.userEndOfTurn]
        ↔ new ≠ prev)
    ∧ (BaseInputTransport.handleEndOfTurn prev new).2 = new := by
  refine ⟨rfl, ?_, ?_, ?_⟩
  · simp [BaseInputTransport.audioStep, hp]
  · cases prev <;> cases new <;> decide
  · cases prev <;> cases new <;> decide

/-- Witness for C8 on a concrete configuration with an end-of-turn
analyzer. -/
theorem end_of_turn_submission_and_emission_witness :
    executorMaxWorkers = 1
    ∧ (BaseInputTransport.audioStep
        { audio_in_enabled := true, vad_enabled := true,
          vad_audio_passthrough := false, vad_analyzer := true,
          end_of_turn_analyzer := true, audio_in_filter := false,
          audio_in_sample_rate := none, audio_out_10ms_chunks := 2 }
        true VADState.speaking (fun _ => EndOfTurnState.complete)
        (Frame.inputAudioRaw 0) VADState.quiet EndOfTurnState.incomplete).2.2
      = some (BaseInputTransport.isSpeechFlag
          (BaseInputTransport.audioStep
            { audio_in_enabled := true, vad_enabled := true,
              vad_audio_passthrough := false, vad_analyzer := true,
              end_of_turn_analyzer := true, audio_in_filter := false,
              audio_in_sample_rate := none, audio_out_10ms_chunks := 2 }
            true VADState.speaking (fun _ => EndOfTurnState.complete)
            (Frame.inputAudioRaw 0) VADState.quiet EndOfTurnState.incomplete).1.1)
    ∧ ((BaseInputTransport.handleEndOfTurn EndOfTurnState.incomplete
          EndOfTurnState.complete).1 = [Frame.userEndOfTurn]
        ↔ EndOfTurnState.complete ≠ EndOfTurnState.incomplete)
    ∧ (BaseInputTransport.handleEndOfTurn EndOfTurnState.incomplete
        EndOfTurnState.complete).2 = EndOfTurnState.complete :=
  end_of_turn_submission_and_emission
    { audio_in_enabled := true, vad_enabled := true,
      vad_audio_passthrough := false, vad_analyzer := true,
      end_of_turn_analyzer := true, audio_in_filter := false,
      audio_in_sample_rate := none, audio_out_10ms_chunks := 2 }
    true VADState.speaking (fun _ => EndOfTurnState.complete)
    (Frame.inputAudioRaw 0) VADState.quiet EndOfTurnState.incomplete
    EndOfTurnState.incomplete EndOfTurnState.complete rfl

/-- Counterexample to C1 as stated: gate starts Closed, three data frames
are buffered, a StartInterruptionFrame clears the buffer and closes the
gate, then a Notifier fire flushes zero frames — but `_gate_task_handler`
calls `open_gate()` unconditionally, so the gate is Open afterwards, not
Closed. -/
theorem gate_open_after_interruption_then_wake :
    (OutputGate.gateWake
      (OutputGate.processFrame
        (OutputGate.processSeq (OutputGate.init false)
          [(Frame.dataF 1, FrameDirection.downstream),
           (Frame.dataF 2, FrameDirection.downstream),
           (Frame.dataF 3, FrameDirection.downstream)]).1
        Frame.startInterruption FrameDirection.downstream).1).2 = []
    ∧ (OutputGate.gateWake
      (OutputGate.processFrame
        (OutputGate.processSeq (OutputGate.init false)
          [(Frame.dataF 1, FrameDirection.downstream),
           (Frame.dataF 2, FrameDirection.downstream),
           (Frame.dataF 3, FrameDirection.downstream)]).1
        Frame.startInterruption FrameDirection.downstream).1).1.gateOpen = true := by
  decide

/-- Claim C1 (amended): on StartInterruptionFrame the gate synchronously
clears its buffer, forces itself Closed and forwards the frame; a
subsequent Notifier fire then flushes zero buffered frames, and the gate
transitions to Open (it does not remain Closed). -/
theorem gate_interruption_clears_and_closes_then_wake_opens
    (s : GateState) (d : FrameDirection)
    (h : s.framesBuffer ≠ []) :
    (OutputGate.processFrame s Frame.startInterruption d).1.framesBuffer = []
    ∧ (OutputGate.processFrame s Frame.startInterruption d).1.gateOpen = false
    ∧ (OutputGate.processFrame s Frame.startInterruption d).2
      = [(Frame.startInterruption, d)]
    ∧ (OutputGate.gateWake
        (OutputGate.processFrame s Frame.startInterruption d).1).2 = []
    ∧ (OutputGate.gateWake
        (OutputGate.processFrame s Frame.startInterruption d).1).1.gateOpen = true := by
  simp [OutputGate.processFrame, OutputGate.gateWake, isSystemFrame]

/-- Witness for the amended C1 on a closed gate holding one buffered
frame. -/
theorem gate_interruption_clears_and_closes_then_wake_opens_witness :
    (OutputGate.processFrame
        { gateOpen := false,
          framesBuffer := [(Frame.dataF 1, FrameDirection.downstream)],
          gateTask := true }
        Frame.startInterruption FrameDirection.downstream).1.framesBuffer = []
    ∧ (OutputGate.processFrame
        { gateOpen := false,
          framesBuffer := [(Frame.dataF 1, FrameDirection.downstream)],
          gateTask := true }
        Frame.startInterruption FrameDirection.downstream).1.gateOpen = false
    ∧ (OutputGate.processFrame
        { gateOpen := false,
          framesBuffer := [(Frame.dataF 1, FrameDirection.downstream)],
          gateTask := true }
        Frame.startInterruption FrameDirection.downstream).2
      = [(Frame.startInterruption, FrameDirection.downstream)]
    ∧ (OutputGate.gateWake
        (OutputGate.processFrame
          { gateOpen := false,
            framesBuffer := [(Frame.dataF 1, FrameDirection.downstream)],
            gateTask := true }
          Frame.startInterruption FrameDirection.downstream).1).2 = []
    ∧ (OutputGate.gateWake
        (OutputGate.processFrame
          { gateOpen := false,
            framesBuffer := [(Frame.dataF 1, FrameDirection.downstream)],
            gateTask := true }
          Frame.startInterruption FrameDirection.downstream).1).1.gateOpen = true :=
  gate_interruption_clears_and_closes_then_wake_opens
    { gateOpen := false,
      framesBuffer := [(Frame.dataF 1, FrameDirection.downstream)],
      gateTask := true }
    FrameDirection.downstream (by decide)

/-- Helper: when every remaining `_connect` outcome raises and enough
outcomes remain, the retry loop ends in RuntimeError after exactly
`3 - retryCount` further attempts. -/
theorem startLoop_all_raised (outs : List AWSTranscribeSTTService.ConnectOutcome) :
    ∀ rc : Nat,
    (∀ o ∈ outs, o = AWSTranscribeSTTService.ConnectOutcome.raised) →
    3 - rc ≤ outs.length →
    AWSTranscribeSTTService.startLoop outs rc
      = some AWSTranscribeSTTService.StartResult.runtimeError
    ∧ AWSTranscribeSTTService.startAttempts outs rc = 3 - rc := by
  induction outs with
  | nil =>
      intro rc h hlen
      simp only [List.length_nil] at hlen
      have h3 : 3 ≤ rc := by omega
      constructor
      · simp [AWSTranscribeSTTService.startLoop, h3]
      · simp [AWSTranscribeSTTService.startAttempts, h3]
  | cons o rest ih =>
      intro rc h hlen
      have ho : o = AWSTranscribeSTTService.ConnectOutcome.raised := h o (by simp)
      subst ho
      by_cases h3 : 3 ≤ rc
      · constructor
        · simp [AWSTranscribeSTTService.startLoop, h3]
        · simp [AWSTranscribeSTTService.startAttempts, h3]
      · simp only [List.length_cons] at hlen
        have ihr := ih (rc + 1) (fun x hm => h x (by simp [hm])) (by omega)
        constructor
        · simp [AWSTranscribeSTTService.startLoop, h3, ihr.1]
        · simp [AWSTranscribeSTTService.startAttempts, h3, ihr.2]
          omega

/-- Counterexample to C9 as stated: with `_connect` outcomes
[notOpen, raised, raised, raised], `start` makes 4 connection attempts
before raising RuntimeError — the attempt that returned without an open
connection was retried without counting, so "at most 3 attempts" fails. -/
theorem aws_start_more_than_three_attempts :
    AWSTranscribeSTTService.startAttempts
      [AWSTranscribeSTTService.ConnectOutcome.notOpen,
       AWSTranscribeSTTService.ConnectOutcome.raised,
       AWSTranscribeSTTService.ConnectOutcome.raised,
       AWSTranscribeSTTService.ConnectOutcome.raised] 0 = 4
    ∧ AWSTranscribeSTTService.startLoop
      [AWSTranscribeSTTService.ConnectOutcome.notOpen,
       AWSTranscribeSTTService.ConnectOutcome.raised,
       AWSTranscribeSTTService.ConnectOutcome.raised,
       AWSTranscribeSTTService.ConnectOutcome.raised] 0
      = some AWSTranscribeSTTService.StartResult.runtimeError := by
  decide

/-- Claim C9 (amended): `start` retries `_connect` until three attempts
have raised; when every attempt raises it stops after exactly 3 attempts
with RuntimeError; it returns normally as soon as an attempt yields an
open connection; and an attempt that completes without an exception but
without an open connection is retried without counting toward the
3-attempt budget. -/
theorem aws_start_retry_behavior
    (outs rest : List AWSTranscribeSTTService.ConnectOutcome) (rc : Nat)
    (hall : ∀ o ∈ outs, o = AWSTranscribeSTTService.ConnectOutcome.raised)
    (hlen : 3 ≤ outs.length) (hrc : rc < 3) :
    AWSTranscribeSTTService.startLoop outs 0
      = some AWSTranscribeSTTService.StartResult.runtimeError
    ∧ AWSTranscribeSTTService.startAttempts outs 0 = 3
    ∧ AWSTranscribeSTTService.startLoop
        (AWSTranscribeSTTService.ConnectOutcome.opened :: rest) rc
      = some AWSTranscribeSTTService.StartResult.connected
    ∧ AWSTranscribeSTTService.startLoop
        (AWSTranscribeSTTService.ConnectOutcome.notOpen :: rest) rc
      = AWSTranscribeSTTService.startLoop rest rc := by
  have h := startLoop_all_raised outs 0 hall (by omega)
  have hrc3 : ¬ 3 ≤ rc := by omega
  refine ⟨h.1, by rw [h.2], ?_, ?_⟩
  · simp [AWSTranscribeSTTService.startLoop, hrc3]
  · simp [AWSTranscribeSTTService.startLoop, hrc3]

/-- Witness for the amended C9 with three raising attempts. -/
theorem aws_start_retry_behavior_witness :
    AWSTranscribeSTTService.startLoop
      [AWSTranscribeSTTService.ConnectOutcome.raised,
       AWSTranscribeSTTService.ConnectOutcome.raised,
       AWSTranscribeSTTService.ConnectOutcome.raised] 0
      = some AWSTranscribeSTTService.StartResult.runtimeError
    ∧ AWSTranscribeSTTService.startAttempts
      [AWSTranscribeSTTService.ConnectOutcome.raised,
       AWSTranscribeSTTService.ConnectOutcome.raised,
       AWSTranscribeSTTService.ConnectOutcome.raised] 0 = 3
    ∧ AWSTranscribeSTTService.startLoop
        (AWSTranscribeSTTService.ConnectOutcome.opened :: []) 0
      = some AWSTranscribeSTTService.StartResult.connected
    ∧ AWSTranscribeSTTService.startLoop
        (AWSTranscribeSTTService.ConnectOutcome.notOpen :: []) 0
      = AWSTranscribeSTTService.startLoop [] 0 :=
  aws_start_retry_behavior
    [AWSTranscribeSTTService.ConnectOutcome.raised,
     AWSTranscribeSTTService.ConnectOutcome.raised,
     AWSTranscribeSTTService.ConnectOutcome.raised] [] 0
    (by decide) (by decide) (by decide)

end Pipecat
